import Mathlib

/-!
Verification of the platform-independent layer of the `polling` crate
(`src/lib.rs`): the portable `Event` model and the `Poller` façade that
composes an abstract per-platform backend with a mutex-guarded scratch
event buffer.

The per-platform backends (the `sys` module: `epoll`, `kqueue`, `wepoll`)
are separate modules whose sources are not part of the façade file; they
are modelled abstractly as a record of state-passing operations, following
the backend contract of the specification (§4.1).
-/

/-- The value `usize::MAX` on a 64-bit platform: the key reserved for the
library's internal wakeup source. The façade compares keys against it with
plain equality, so the truth of the properties below does not depend on the
pointer width chosen here. -/
def USIZE_MAX : Nat := 2 ^ 64 - 1

/-- `Event` (src/lib.rs:96-103): indicates that a file descriptor or socket
can read or write without blocking. `key` identifies the I/O object. -/
structure Event where
  key : Nat
  readable : Bool
  writable : Bool
  deriving Repr, DecidableEq

/-- `Event::all` (src/lib.rs:109-115): `Event { key, readable: true, writable: true }`. -/
def Event.all (key : Nat) : Event :=
  { key := key, readable := true, writable := true }

/-- `Event::readable` (src/lib.rs:120-126): `Event { key, readable: true, writable: false }`.
Primed because the structure projection `Event.readable` takes the plain name. -/
def Event.readable' (key : Nat) : Event :=
  { key := key, readable := true, writable := false }

/-- `Event::writable` (src/lib.rs:131-137): `Event { key, readable: false, writable: true }`.
Primed because the structure projection `Event.writable` takes the plain name. -/
def Event.writable' (key : Nat) : Event :=
  { key := key, readable := false, writable := true }

/-- `Event::none` (src/lib.rs:142-148) exactly as the source writes it: the
body constructs `Event { key, readable: true, writable: true }`, although the
doc comment above it says `Event { key, readable: false, writable: false }`. -/
def Event.none (key : Nat) : Event :=
  { key := key, readable := true, writable := true }

/-- `std::io::Error` as the crate uses it, restricted to the two kinds the
error taxonomy distinguishes: the `InvalidInput` error the façade creates for
the reserved key (src/lib.rs:266-269), and an OS-raised error carrying the
errno of a failing syscall. -/
inductive IoError where
  | invalidInput (msg : String)
  | os (code : Nat)
  deriving Repr, DecidableEq

/-- Whether a result is a failure of the `InvalidInput` kind. -/
def isInvalidInput {α : Type} : Except IoError α → Bool
  | .error (.invalidInput _) => true
  | _ => false

/-- Modelled from the spec: the per-platform backend (the `sys` module —
`epoll`, `kqueue` or `wepoll`), whose source files are not present under
`src/`. Per §4.1 the contract is `insert`, `interest`, `remove`, `wait`,
`notify`, all surfacing the kernel error directly; the kernel queue, the
wakeup source and the scratch buffer contents before the call are abstracted
into a state type `σ`. `wait` takes the timeout (`none` = indefinite, in
nanoseconds otherwise), fills the scratch buffer and returns the raw count of
delivered kernel records together with the buffer contents. Raw handles are
integers (`RawFd` on Unix). -/
structure Backend (σ : Type) where
  insert : σ → Int → Except IoError Unit × σ
  interest : σ → Int → Event → Except IoError Unit × σ
  remove : σ → Int → Except IoError Unit × σ
  wait : σ → Option Nat → Except IoError (Nat × List Event) × σ
  notify : σ → Except IoError Unit × σ

/-- `impl Source for RawFd` (src/lib.rs:378-382): `fn raw(&self) -> RawFd { *self }`. -/
def sourceRaw (fd : Int) : Int := fd

/-- `Poller::insert` (src/lib.rs:193-195): `self.poller.insert(source.raw())`. -/
def Poller.insert {σ : Type} (b : Backend σ) (s : σ) (source : Int) :
    Except IoError Unit × σ :=
  b.insert s (sourceRaw source)

/-- `Poller::interest` (src/lib.rs:264-273): reject the reserved key with an
`InvalidInput` error before the backend is reached; otherwise forward
`source.raw()` and the event to the backend. -/
def Poller.interest {σ : Type} (b : Backend σ) (s : σ) (source : Int)
    (event : Event) : Except IoError Unit × σ :=
  if event.key == USIZE_MAX then
    (.error (.invalidInput "the key cannot be `usize::MAX`"), s)
  else
    b.interest s (sourceRaw source) event

/-- `Poller::remove` (src/lib.rs:290-292): `self.poller.remove(source.raw())`. -/
def Poller.remove {σ : Type} (b : Backend σ) (s : σ) (source : Int) :
    Except IoError Unit × σ :=
  b.remove s (sourceRaw source)

/-- `Poller::notify` (src/lib.rs:357-359): `self.poller.notify()`. -/
def Poller.notify {σ : Type} (b : Backend σ) (s : σ) :
    Except IoError Unit × σ :=
  b.notify s

/-- `Poller::wait` (src/lib.rs:325-333). `tryLockOk` says whether the
non-blocking `self.events.try_lock()` on the scratch-buffer mutex succeeds;
on success the backend fills the scratch buffer, the façade appends to the
caller's vector every buffered record whose key differs from `usize::MAX`,
and returns the raw backend count; a backend error propagates via `?`; a
failed lock returns `Ok(0)` at once. The result pairs the returned
`io::Result<usize>` and the caller's vector after the call with the backend
state after the call. -/
def Poller.wait {σ : Type} (b : Backend σ) (s : σ) (tryLockOk : Bool)
    (events : List Event) (timeout : Option Nat) :
    (Except IoError Nat × List Event) × σ :=
  if tryLockOk then
    match b.wait s timeout with
    | (.error e, s') => ((.error e, events), s')
    | (.ok (n, buf), s') =>
        ((.ok n, events ++ buf.filter (fun ev => ev.key != USIZE_MAX)), s')
  else
    ((.ok 0, events), s)

/-- A backend whose operations all succeed and whose `wait` reports the raw
count `n` with scratch-buffer contents `buf`; used to instantiate theorems at
concrete inputs. -/
def okBackend (n : Nat) (buf : List Event) : Backend Unit where
  insert := fun s _ => (.ok (), s)
  interest := fun s _ _ => (.ok (), s)
  remove := fun s _ => (.ok (), s)
  wait := fun s _ => (.ok (n, buf), s)
  notify := fun s => (.ok (), s)

/-- A backend whose operations all fail with the OS error `code`; used to
instantiate error-propagation theorems at concrete inputs. -/
def errBackend (code : Nat) : Backend Unit where
  insert := fun s _ => (.error (.os code), s)
  interest := fun s _ _ => (.error (.os code), s)
  remove := fun s _ => (.error (.os code), s)
  wait := fun s _ => (.error (.os code), s)
  notify := fun s => (.error (.os code), s)

/-- C1: the claim — following the documentation — is that `Event::none(k)`
constructs `{key: k, readable: false, writable: false}`; the code as written
(src/lib.rs:142-148) constructs `{key: k, readable: true, writable: true}`,
contradicting its own doc comment. Evaluated at key 0. -/
theorem c1_none_code_contradicts_doc :
    Event.none 0 = { key := 0, readable := true, writable := true } ∧
    Event.none 0 ≠ { key := 0, readable := false, writable := false } := by
  decide

/-- C6: for every key `k`, `Event::readable(k)` yields
`{key: k, readable: true, writable: false}`, `Event::writable(k)` yields
`{key: k, readable: false, writable: true}`, and `Event::all(k)` yields
`{key: k, readable: true, writable: true}` (src/lib.rs:105-137). -/
theorem c6_event_constructors (k : Nat) :
    ((Event.readable' k).key = k ∧ (Event.readable' k).readable = true ∧
      (Event.readable' k).writable = false) ∧
    ((Event.writable' k).key = k ∧ (Event.writable' k).readable = false ∧
      (Event.writable' k).writable = true) ∧
    ((Event.all k).key = k ∧ (Event.all k).readable = true ∧
      (Event.all k).writable = true) :=
  ⟨⟨rfl, rfl, rfl⟩, ⟨rfl, rfl, rfl⟩, ⟨rfl, rfl, rfl⟩⟩

/-- C2: `Poller::interest(source, event)` fails with an `InvalidInput` error
iff `event.key = usize::MAX` (given that the backend itself raises only
OS-kind errors, as an abstract hypothesis at the call in question); when the
key is reserved the result is the same for every backend and the state is
returned unchanged — the backend is never invoked and no syscall side effect
occurs — and for every other key the call is forwarded to the backend with
the raw handle (src/lib.rs:264-273). -/
theorem c2_interest_reserved_key {σ : Type} (b : Backend σ) (s : σ)
    (src : Int) (event : Event)
    (hb : isInvalidInput (b.interest s (sourceRaw src) event).1 = false) :
    (isInvalidInput (Poller.interest b s src event).1 = true ↔
      event.key = USIZE_MAX) ∧
    (event.key = USIZE_MAX →
      ∀ b2 : Backend σ, Poller.interest b2 s src event =
        (.error (.invalidInput "the key cannot be `usize::MAX`"), s)) ∧
    (event.key ≠ USIZE_MAX →
      Poller.interest b s src event = b.interest s (sourceRaw src) event) := by
  unfold Poller.interest
  by_cases h : event.key = USIZE_MAX
  · simp [h, isInvalidInput]
  · simp [h, hb]

/-- C2 witness: the theorem instantiated at the all-succeeding backend, raw
handle 3 and the event `Event::readable(5)`. -/
theorem c2_interest_reserved_key_witness :
    isInvalidInput
      ((okBackend 0 []).interest () (sourceRaw 3) (Event.readable' 5)).1 = false ∧
    ((isInvalidInput
        (Poller.interest (okBackend 0 []) () 3 (Event.readable' 5)).1 = true ↔
      (Event.readable' 5).key = USIZE_MAX) ∧
    ((Event.readable' 5).key = USIZE_MAX →
      ∀ b2 : Backend Unit, Poller.interest b2 () 3 (Event.readable' 5) =
        (.error (.invalidInput "the key cannot be `usize::MAX`"), ())) ∧
    ((Event.readable' 5).key ≠ USIZE_MAX →
      Poller.interest (okBackend 0 []) () 3 (Event.readable' 5) =
        (okBackend 0 []).interest () (sourceRaw 3) (Event.readable' 5))) :=
  ⟨by decide, c2_interest_reserved_key (okBackend 0 []) () 3 (Event.readable' 5)
    (by decide)⟩

/-- C5: when the non-blocking acquisition of the scratch-buffer mutex fails,
`Poller::wait` returns `Ok(0)` at once with the caller's vector and the state
unchanged, and the result is the same for every backend — the backend is not
called (src/lib.rs:326-332). -/
theorem c5_wait_lock_contention {σ : Type} (b : Backend σ) (s : σ)
    (events : List Event) (timeout : Option Nat) :
    Poller.wait b s false events timeout = ((.ok 0, events), s) ∧
    ∀ b2 : Backend σ,
      Poller.wait b2 s false events timeout =
        Poller.wait b s false events timeout := by
  exact ⟨rfl, fun b2 => rfl⟩

/-- C7: `Poller::wait` only ever appends to the caller-supplied vector: the
vector after any call is the vector before it followed by some tail
(src/lib.rs:325-333). -/
theorem c7_wait_appends {σ : Type} (b : Backend σ) (s : σ) (tryLockOk : Bool)
    (events : List Event) (timeout : Option Nat) :
    ∃ tail, (Poller.wait b s tryLockOk events timeout).1.2 = events ++ tail := by
  unfold Poller.wait
  cases tryLockOk with
  | false => exact ⟨[], by simp⟩
  | true =>
    match hw : b.wait s timeout with
    | (.error e, s') => exact ⟨[], by simp [hw]⟩
    | (.ok (n, buf), s') =>
      exact ⟨buf.filter (fun ev => ev.key != USIZE_MAX), by simp [hw]⟩

/-- C8: `Poller::insert`, `Poller::remove` and `Poller::notify` forward
directly to the corresponding backend operation with the source's raw handle
unchanged, and their result — error or success, together with the resulting
state — is exactly the backend's (src/lib.rs:193-195, 290-292, 357-359). -/
theorem c8_forwarding {σ : Type} (b : Backend σ) (s : σ) (src : Int) :
    Poller.insert b s src = b.insert s src ∧
    Poller.remove b s src = b.remove s src ∧
    Poller.notify b s = b.notify s ∧
    sourceRaw src = src :=
  ⟨rfl, rfl, rfl, rfl⟩

/-- C3: when `Poller::wait` acquires the lock and the backend call succeeds,
the façade appends to the caller's vector exactly the scratch-buffer records
whose key differs from the reserved sentinel `usize::MAX` — reserved-key
records are dropped, all others appended in order — so no appended event
carries the reserved key (src/lib.rs:325-333). -/
theorem c3_wait_drops_reserved_key {σ : Type} (b : Backend σ) (s : σ)
    (events : List Event) (timeout : Option Nat) (n : Nat) (buf : List Event)
    (s' : σ) (hw : b.wait s timeout = (.ok (n, buf), s')) :
    (Poller.wait b s true events timeout).1.2 =
      events ++ buf.filter (fun ev => ev.key != USIZE_MAX) ∧
    ∀ ev ∈ buf.filter (fun ev => ev.key != USIZE_MAX), ev.key ≠ USIZE_MAX := by
  refine ⟨by simp [Poller.wait, hw], ?_⟩
  intro ev hev
  rw [List.mem_filter] at hev
  simpa [bne_iff_ne] using hev.2

/-- C3 witness: the theorem instantiated at a backend delivering one wakeup
record (key `usize::MAX`) and one ordinary record (key 7). -/
theorem c3_wait_drops_reserved_key_witness :
    (okBackend 2 [⟨USIZE_MAX, true, false⟩, ⟨7, true, false⟩]).wait ()
        Option.none =
      (.ok (2, [⟨USIZE_MAX, true, false⟩, ⟨7, true, false⟩]), ()) ∧
    ((Poller.wait (okBackend 2 [⟨USIZE_MAX, true, false⟩, ⟨7, true, false⟩])
        () true [] Option.none).1.2 =
      [] ++ ([⟨USIZE_MAX, true, false⟩, ⟨7, true, false⟩] : List Event).filter
          (fun ev => ev.key != USIZE_MAX) ∧
    ∀ ev ∈ ([⟨USIZE_MAX, true, false⟩, ⟨7, true, false⟩] : List Event).filter
        (fun ev => ev.key != USIZE_MAX), ev.key ≠ USIZE_MAX) :=
  ⟨rfl, c3_wait_drops_reserved_key
    (okBackend 2 [⟨USIZE_MAX, true, false⟩, ⟨7, true, false⟩]) () []
    Option.none 2 [⟨USIZE_MAX, true, false⟩, ⟨7, true, false⟩] () rfl⟩

/-- C4: when `Poller::wait` acquires the lock and the backend call succeeds
with raw count `n`, the façade returns `Ok(n)` — the raw backend count, which
counts filtered wakeup records too — while the number of events actually
appended is the length of the filtered buffer, which can be smaller
(src/lib.rs:326-329). -/
theorem c4_wait_returns_raw_count {σ : Type} (b : Backend σ) (s : σ)
    (events : List Event) (timeout : Option Nat) (n : Nat) (buf : List Event)
    (s' : σ) (hw : b.wait s timeout = (.ok (n, buf), s')) :
    (Poller.wait b s true events timeout).1.1 = .ok n ∧
    (Poller.wait b s true events timeout).1.2.length =
      events.length + (buf.filter (fun ev => ev.key != USIZE_MAX)).length := by
  constructor
  · simp [Poller.wait, hw]
  · simp [Poller.wait, hw]

/-- C4 witness: a backend delivering only the wakeup record reports raw count
1 while zero events are appended — the returned count exceeds the number
appended. -/
theorem c4_wait_returns_raw_count_witness :
    (okBackend 1 [⟨USIZE_MAX, true, false⟩]).wait () Option.none =
      (.ok (1, [⟨USIZE_MAX, true, false⟩]), ()) ∧
    ((Poller.wait (okBackend 1 [⟨USIZE_MAX, true, false⟩]) () true []
        Option.none).1.1 = .ok 1 ∧
    (Poller.wait (okBackend 1 [⟨USIZE_MAX, true, false⟩]) () true []
        Option.none).1.2.length =
      ([] : List Event).length +
        (([⟨USIZE_MAX, true, false⟩] : List Event).filter
          (fun ev => ev.key != USIZE_MAX)).length) :=
  ⟨rfl, c4_wait_returns_raw_count (okBackend 1 [⟨USIZE_MAX, true, false⟩]) ()
    [] Option.none 1 [⟨USIZE_MAX, true, false⟩] () rfl⟩

/-- C9: if the backend's `wait` fails, `Poller::wait` propagates exactly that
error and the caller's vector is unchanged — the `?` operator raises before
any event is appended (src/lib.rs:325-333). -/
theorem c9_wait_error_propagates {σ : Type} (b : Backend σ) (s : σ)
    (events : List Event) (timeout : Option Nat) (e : IoError) (s' : σ)
    (hw : b.wait s timeout = (.error e, s')) :
    Poller.wait b s true events timeout = ((.error e, events), s') := by
  simp [Poller.wait, hw]

/-- C9 witness: the theorem instantiated at a backend failing with OS error 4
(`EINTR`) and a non-empty caller vector. -/
theorem c9_wait_error_propagates_witness :
    (errBackend 4).wait () Option.none = (.error (.os 4), ()) ∧
    Poller.wait (errBackend 4) () true [⟨9, true, true⟩] Option.none =
      ((.error (.os 4), [⟨9, true, true⟩]), ()) :=
  ⟨rfl, c9_wait_error_propagates (errBackend 4) () [⟨9, true, true⟩]
    Option.none (.os 4) () rfl⟩

/-- C10: the façade filters delivered records solely by key equality with
`usize::MAX`: a buffered record with both flags false (a spurious wakeup or
hang-up indication) whose key is not reserved is still appended to the
caller's vector (src/lib.rs:328). -/
theorem c10_filter_only_by_key {σ : Type} (b : Backend σ) (s : σ)
    (events : List Event) (timeout : Option Nat) (n : Nat) (buf : List Event)
    (s' : σ) (ev : Event) (hw : b.wait s timeout = (.ok (n, buf), s'))
    (hev : ev ∈ buf) (hkey : ev.key ≠ USIZE_MAX)
    (hr : ev.readable = false) (hwr : ev.writable = false) :
    ev ∈ (Poller.wait b s true events timeout).1.2 := by
  simp only [Poller.wait, hw, if_pos]
  exact List.mem_append_right _ (List.mem_filter.mpr ⟨hev, by simp [hkey]⟩)

/-- C10 witness: an event with key 4 and both flags false delivered by the
backend is appended to the caller's vector. -/
theorem c10_filter_only_by_key_witness :
    (okBackend 1 [⟨4, false, false⟩]).wait () Option.none =
      (.ok (1, [⟨4, false, false⟩]), ()) ∧
    (⟨4, false, false⟩ : Event) ∈ ([⟨4, false, false⟩] : List Event) ∧
    (⟨4, false, false⟩ : Event).key ≠ USIZE_MAX ∧
    (⟨4, false, false⟩ : Event) ∈
      (Poller.wait (okBackend 1 [⟨4, false, false⟩]) () true []
        Option.none).1.2 :=
  ⟨rfl, by decide, by decide,
    c10_filter_only_by_key (okBackend 1 [⟨4, false, false⟩]) () []
      Option.none 1 [⟨4, false, false⟩] () ⟨4, false, false⟩ rfl
      (by decide) (by decide) rfl rfl⟩
